import Mathlib

/-!
Shallow embedding of `test_kvc/main.cpp`, a diagnostic reproduction harness
for KV-cache position shifting with multimodal prompts.

External library calls (gguf metadata lookup, image loading, tokenization,
prompt evaluation, per-token decode) are modelled by an environment `Env`
of oracle outcomes; the script's own control flow, the parameters it passes
to the KV-cache editing calls, and its resource acquisitions/releases are
embedded faithfully.  The KV cache of sequence 0 is modelled as a finite
set of occupied integer positions, with `llama_memory_seq_rm` and
`llama_memory_seq_add` given their documented set semantics.
-/

namespace TestKvc

/-- `llama_memory_seq_rm mem 0 p0 p1`: remove occupied positions in `[p0, p1)`. -/
def seq_rm (c : Finset ℤ) (p0 p1 : ℤ) : Finset ℤ :=
  c.filter fun p => ¬ (p0 ≤ p ∧ p < p1)

/-- `llama_memory_seq_add mem 0 p0 -1 d`: add `d` to every occupied position `≥ p0`
(`p1 = -1` means unbounded above). -/
def seq_add (c : Finset ℤ) (p0 d : ℤ) : Finset ℤ :=
  c.image fun p => if p0 ≤ p then p + d else p

/-- `llama_memory_seq_pos_max mem 0`: largest occupied position, `-1` when empty. -/
def seq_pos_max (c : Finset ℤ) : ℤ :=
  c.max.unbot' (-1)

/-- `constexpr llama_pos PREFIX_LEN = 3` (main.cpp line 129). -/
def PREFIX_LEN : ℤ := 3

/-- `arch == "qwen3vl" ? 3 : 258` (main.cpp line 134). -/
def first_image_npos (arch : String) : ℤ :=
  if arch = "qwen3vl" then 3 else 258

/-- The cache edit performed by main.cpp lines 144-147: remove the first image's
position range `[PREFIX_LEN, PREFIX_LEN + n)`, then shift every position
`≥ PREFIX_LEN + n` back by `n`. -/
def cacheShift (n : ℤ) (c : Finset ℤ) : Finset ℤ :=
  seq_add (seq_rm c PREFIX_LEN (PREFIX_LEN + n)) (PREFIX_LEN + n) (-n)

/-- Message of the exception thrown by `get_model_arch` (main.cpp line 18). -/
def MISSING_KEY_MSG : String := "Architecture key not found"

/-- `get_model_arch` (main.cpp lines 12-21): looks up `general.architecture` in the
gguf metadata; throws when the key is absent.  The lookup outcome is an oracle. -/
def get_model_arch (key_found : Bool) (arch : String) : Except String String :=
  if key_found then .ok arch else .error MISSING_KEY_MSG

/-- `build_prompt` (main.cpp lines 23-30): chat-template prompt with two
`<__media__>` markers for the two supported architectures; throws otherwise. -/
def build_prompt (arch : String) : Except String String :=
  if arch = "qwen3vl" then
    .ok "<|im_start|>user\n<__media__><__media__>what is in the image?<|im_end|>\n<|im_start|>assistant\n"
  else if arch = "gemma3" then
    .ok "<start_of_turn>user\n<__media__><__media__><end_of_turn>\n<start_of_turn>model\n"
  else
    .error ("Unsupported architecture: " ++ arch)

/-- `listStartsWith m l`: `l` begins with `m` (character-wise). -/
def listStartsWith : List Char → List Char → Bool
  | [], _ => true
  | _ :: _, [] => false
  | a :: as, b :: bs => a = b && listStartsWith as bs

/-- Number of indices of `l` at which the marker `m` occurs. -/
def countMarker (m : List Char) : List Char → Nat
  | [] => 0
  | c :: rest => (if listStartsWith m (c :: rest) then 1 else 0) + countMarker m rest

/-- The media marker recognised by the mtmd tokenizer. -/
def mediaMarker : String := "<__media__>"

/-- Outcome of one iteration's external calls inside `generate_tokens`:
whether the sampled token is end-of-generation, and whether `llama_decode`
succeeds on it. -/
structure GenStep where
  is_eog : Bool
  decode_ok : Bool

/-- Observable result of the `generate_tokens` loop. -/
structure GenResult where
  n_pos : ℤ
  printed : Nat
  decodes : Nat
  stopped_eos : Bool
  stopped_decode_fail : Bool
deriving Repr, DecidableEq

/-- The `for (int i = 0; i < count; i++)` loop of `generate_tokens`
(main.cpp lines 38-58), with `rem` iterations remaining, next iteration
index `i`, and current `n_pos`.  Each iteration samples a token (oracle
`steps i`), prints it, breaks on end-of-generation, otherwise adds it to
the batch at position `n_pos` (post-incrementing `n_pos`) and decodes,
breaking on decode failure. -/
def genLoopAux (steps : Nat → GenStep) : Nat → Nat → ℤ → GenResult
  | 0, _, p => ⟨p, 0, 0, false, false⟩
  | rem + 1, i, p =>
    let s := steps i
    if s.is_eog then
      ⟨p, 1, 0, true, false⟩
    else if s.decode_ok then
      let r := genLoopAux steps rem (i + 1) (p + 1)
      ⟨r.n_pos, r.printed + 1, r.decodes + 1, r.stopped_eos, r.stopped_decode_fail⟩
    else
      ⟨p + 1, 1, 1, false, true⟩

/-- `generate_tokens` (main.cpp lines 32-62): init a batch, run the loop for at
most `count` iterations, free the batch. -/
def generate_tokens (steps : Nat → GenStep) (n_pos : ℤ) (count : Nat) : GenResult :=
  genLoopAux steps count 0 n_pos

/-- The compile-time image path macro; both bitmap loads use this same file. -/
def DICE_IMAGE_PATH : String := "dice.png"

/-- One KV-cache editing call recorded by the embedding. -/
inductive MemOp
  | rm (seq p0 p1 : ℤ)
  | add (seq p0 p1 d : ℤ)
deriving Repr, DecidableEq

/-- Set semantics of a recorded cache call on the sequence-0 position set
(`p1 = -1` in `add` means unbounded above, as passed by main.cpp line 147). -/
def applyMemOp (c : Finset ℤ) : MemOp → Finset ℤ
  | .rm _ p0 p1 => seq_rm c p0 p1
  | .add _ p0 p1 d => if p1 = -1 then seq_add c p0 d else c

/-- Owning resource handles acquired by the program. -/
inductive Res
  | ggufCtx | model | lctx | mtmdCtx | bmp1 | bmp2 | chunks | sampler | batch1 | batch2
deriving Repr, DecidableEq

/-- Oracle outcomes of all external library calls made by one invocation. -/
structure Env where
  argc : Nat
  arch_key_found : Bool
  arch : String
  img1_ok : Bool
  img2_ok : Bool
  tokenize_ok : Bool
  eval_ok : Bool
  eval_n_pos : ℤ
  post_shift_pos : ℤ
  steps1 : Nat → GenStep
  steps2 : Nat → GenStep

/-- Observable outcome of a normal return from `main`. -/
structure MainResult where
  exit : Nat
  mem_ops : List MemOp
  gen_counts : List Nat
  tok_images : Option (List String)
  acqs : List Res
  rels : List Res

/-- Outcome of the usage-error return (main.cpp line 68): nothing acquired yet. -/
def resUsage : MainResult := ⟨1, [], [], none, [], []⟩

/-- Outcome of the unsupported-architecture return (main.cpp line 79): only the
gguf context was acquired (and released inside `get_model_arch`). -/
def resArch : MainResult := ⟨1, [], [], none, [.ggufCtx], [.ggufCtx]⟩

/-- Outcome of the image-load-failure return (main.cpp line 100): model, context,
mtmd context and both bitmap wrappers are released by their destructors. -/
def resImg : MainResult :=
  ⟨1, [], [], none,
    [.ggufCtx, .model, .lctx, .mtmdCtx, .bmp1, .bmp2],
    [.ggufCtx, .bmp2, .bmp1, .mtmdCtx, .lctx, .model]⟩

/-- Outcome of the tokenization-failure (main.cpp line 111) and
evaluation-failure (line 120) returns: the chunks wrapper is also live, and the
tokenize call has already been passed both bitmaps. -/
def resTokEval : MainResult :=
  ⟨1, [], [], some [DICE_IMAGE_PATH, DICE_IMAGE_PATH],
    [.ggufCtx, .model, .lctx, .mtmdCtx, .bmp1, .bmp2, .chunks],
    [.ggufCtx, .chunks, .bmp2, .bmp1, .mtmdCtx, .lctx, .model]⟩

/-- Outcome of the success return (main.cpp line 156), parametrised by the
first image's position span `n`: both cache edits recorded in program order,
both generation passes, both batches freed inside `generate_tokens`, and the
sampler freed explicitly before the return. -/
def resOk (n : ℤ) : MainResult :=
  ⟨0,
    [MemOp.rm 0 PREFIX_LEN (PREFIX_LEN + n),
     MemOp.add 0 (PREFIX_LEN + n) (-1) (-n)],
    [5, 50],
    some [DICE_IMAGE_PATH, DICE_IMAGE_PATH],
    [.ggufCtx, .model, .lctx, .mtmdCtx, .bmp1, .bmp2, .chunks,
     .sampler, .batch1, .batch2],
    [.ggufCtx, .batch1, .batch2, .sampler,
     .chunks, .bmp2, .bmp1, .mtmdCtx, .lctx, .model]⟩

/-- `main` (main.cpp lines 65-157).  `.error m` is an exception propagating
uncaught out of `main`; `.ok r` is a normal return with exit code `r.exit`.
Resource acquisitions are recorded in program order; releases record the
scoped-wrapper destructors run at the taken return (in reverse construction
order) together with the explicit `llama_batch_free` / `common_sampler_free`
calls. -/
def mainF (e : Env) : Except String MainResult :=
  if e.argc ≠ 3 then
    .ok resUsage
  else
    match get_model_arch e.arch_key_found e.arch with
    | .error m => .error m
    | .ok arch =>
      if arch ≠ "qwen3vl" ∧ arch ≠ "gemma3" then
        .ok resArch
      else
        -- model + context (line 87), mtmd context (line 93), two bitmaps (lines 96-97)
        if ¬ e.img1_ok ∨ ¬ e.img2_ok then
          .ok resImg
        else
          match build_prompt arch with
          | .error m => .error m
          | .ok _prompt =>
            -- chunks (line 106); tokenize is passed both bitmaps (lines 107-109)
            if ¬ e.tokenize_ok then
              .ok resTokEval
            else if ¬ e.eval_ok then
              .ok resTokEval
            else
              let _g1 := generate_tokens e.steps1 e.eval_n_pos 5
              let _g2 := generate_tokens e.steps2 e.post_shift_pos 50
              .ok (resOk (first_image_npos arch))

/-- Exit code of a normal return, `none` when an exception propagates. -/
def exitCode : Except String MainResult → Option Nat
  | .ok r => some r.exit
  | .error _ => none

/-- Whether the invocation ends in an uncaught exception. -/
def threw : Except String MainResult → Bool
  | .ok _ => false
  | .error _ => true

/-- Oracle where every sampled token is end-of-generation. -/
def stepsAllEog : Nat → GenStep := fun _ => ⟨true, true⟩

/-- Oracle where every sampled token is ordinary and every decode succeeds. -/
def stepsAllOk : Nat → GenStep := fun _ => ⟨false, true⟩

/-- Oracle where every sampled token is ordinary and every decode fails. -/
def stepsAllFail : Nat → GenStep := fun _ => ⟨false, false⟩

/-- A fully successful invocation on a qwen3vl model. -/
def envQwenOk : Env :=
  ⟨3, true, "qwen3vl", true, true, true, true, 800, 803, stepsAllOk, stepsAllOk⟩

/-- An invocation whose model file lacks the `general.architecture` key; every
other external call would succeed. -/
def envNoKey : Env :=
  ⟨3, false, "qwen3vl", true, true, true, true, 800, 803, stepsAllOk, stepsAllOk⟩

/-- An invocation on a model of unsupported architecture `"llama"`. -/
def envUnsupported : Env :=
  ⟨3, true, "llama", true, true, true, true, 800, 803, stepsAllOk, stepsAllOk⟩

/-- A successful qwen3vl invocation in which every generation decode fails. -/
def envQwenDecodeFail : Env :=
  ⟨3, true, "qwen3vl", true, true, true, true, 800, 803, stepsAllFail, stepsAllFail⟩

/-! ## Helper lemmas -/

/-- On the all-successful path, `main` returns normally with the success record. -/
theorem mainF_success (e : Env) (h3 : e.argc = 3) (hk : e.arch_key_found = true)
    (ha : e.arch = "qwen3vl" ∨ e.arch = "gemma3") (h1 : e.img1_ok = true)
    (h2 : e.img2_ok = true) (ht : e.tokenize_ok = true) (he : e.eval_ok = true) :
    mainF e = .ok (resOk (first_image_npos e.arch)) := by
  rcases ha with h | h <;>
    simp [mainF, get_model_arch, build_prompt, h3, hk, h, h1, h2, ht, he]

/-- Every normal return of `main` carries one of the five possible records. -/
theorem mainF_ok_shape (e : Env) (r : MainResult) (h : mainF e = .ok r) :
    r = resUsage ∨ r = resArch ∨ r = resImg ∨ r = resTokEval ∨
      r = resOk 3 ∨ r = resOk 258 := by
  by_cases h3 : e.argc = 3 <;>
  by_cases hk : e.arch_key_found <;>
  by_cases hq : e.arch = "qwen3vl" <;>
  by_cases hg : e.arch = "gemma3" <;>
  by_cases h1 : e.img1_ok <;>
  by_cases h2 : e.img2_ok <;>
  by_cases ht : e.tokenize_ok <;>
  by_cases he : e.eval_ok <;>
  simp only [mainF, get_model_arch, build_prompt, first_image_npos,
    h3, hk, hq, hg, h1, h2, ht, he] at h <;>
  simp_all

/-- `n_pos` advances by exactly the number of `llama_decode` calls made. -/
theorem genLoop_n_pos (steps : Nat → GenStep) :
    ∀ rem i p, (genLoopAux steps rem i p).n_pos =
      p + (genLoopAux steps rem i p).decodes := by
  intro rem
  induction rem with
  | zero => intro i p; simp [genLoopAux]
  | succ r ih =>
    intro i p
    simp only [genLoopAux]
    split
    · simp
    · split
      · have := ih (i + 1) (p + 1)
        simp only [this]
        push_cast
        ring
      · simp

/-- An end-of-generation token stops the loop at once: one token printed,
no batch submission, no decode, `n_pos` untouched. -/
theorem genLoop_eog (steps : Nat → GenStep) (rem i : Nat) (p : ℤ)
    (h : (steps i).is_eog = true) :
    genLoopAux steps (rem + 1) i p = ⟨p, 1, 0, true, false⟩ := by
  simp [genLoopAux, h]

/-- A decode failure stops the loop at once, after the one failed decode. -/
theorem genLoop_decode_fail (steps : Nat → GenStep) (rem i : Nat) (p : ℤ)
    (h1 : (steps i).is_eog = false) (h2 : (steps i).decode_ok = false) :
    genLoopAux steps (rem + 1) i p = ⟨p + 1, 1, 1, false, true⟩ := by
  simp [genLoopAux, h1, h2]

/-- The loop runs at most `rem` iterations: printed tokens and decode calls
are both bounded by the requested count. -/
theorem genLoop_bounds (steps : Nat → GenStep) :
    ∀ rem i p, (genLoopAux steps rem i p).printed ≤ rem ∧
      (genLoopAux steps rem i p).decodes ≤ rem := by
  intro rem
  induction rem with
  | zero => intro i p; simp [genLoopAux]
  | succ r ih =>
    intro i p
    simp only [genLoopAux]
    split
    · simp
    · split
      · have := ih (i + 1) (p + 1)
        constructor <;> simp <;> omega
      · simp

/-- Effect of the program's remove-then-shift edit on a contiguous cache. -/
theorem cacheShift_Ico (n N : ℤ) (hn : 0 ≤ n) (hN : 3 + n ≤ N) :
    cacheShift n (Finset.Ico 0 N) = Finset.Ico 0 (N - n) := by
  ext p
  simp only [cacheShift, seq_add, seq_rm, PREFIX_LEN, Finset.mem_image,
    Finset.mem_filter, Finset.mem_Ico]
  constructor
  · rintro ⟨q, ⟨⟨hq0, hqN⟩, hq2⟩, hif⟩
    split at hif <;> omega
  · rintro ⟨h0, hp⟩
    by_cases hc : p < 3
    · refine ⟨p, ⟨⟨h0, by omega⟩, by omega⟩, ?_⟩
      rw [if_neg (by omega)]
    · refine ⟨p + n, ⟨⟨by omega, by omega⟩, by omega⟩, ?_⟩
      rw [if_pos (by omega)]
      ring

/-- Largest element of a nonempty initial segment of the integers. -/
theorem Ico_max_eq (M : ℤ) (h : 0 < M) :
    (Finset.Ico (0:ℤ) M).max = ((M - 1 : ℤ) : WithBot ℤ) := by
  have hne : (Finset.Ico (0:ℤ) M).Nonempty := by
    refine ⟨M - 1, ?_⟩
    simp only [Finset.mem_Ico]
    omega
  rw [← Finset.coe_max' hne]
  congr 1
  apply le_antisymm
  · apply Finset.max'_le
    intro x hx
    simp only [Finset.mem_Ico] at hx
    omega
  · apply Finset.le_max'
    simp only [Finset.mem_Ico]
    omega

/-- `llama_memory_seq_pos_max` on a nonempty initial segment. -/
theorem seq_pos_max_Ico (M : ℤ) (h : 0 < M) :
    seq_pos_max (Finset.Ico 0 M) = M - 1 := by
  rw [seq_pos_max, Ico_max_eq M h]
  rfl

/-! ## Claim theorems -/

/-- C1: on any run that reaches the shift, the program issues exactly two cache
edits in order: first `llama_memory_seq_rm` on `[PREFIX_LEN, PREFIX_LEN + n) =
[3, 3 + n)` with `n = first_image_npos` (3 for qwen3vl, 258 for gemma3), then
`llama_memory_seq_add` shifting every cached position `≥ 3 + n` back by `n`
(upper bound `-1`, i.e. unbounded); on any cache set their combined effect is
the removal followed by the shift. -/
theorem claim_C1 (e : Env) (h3 : e.argc = 3) (hk : e.arch_key_found = true)
    (ha : e.arch = "qwen3vl" ∨ e.arch = "gemma3") (h1 : e.img1_ok = true)
    (h2 : e.img2_ok = true) (ht : e.tokenize_ok = true) (he : e.eval_ok = true) :
    ∃ r, mainF e = .ok r ∧
      r.mem_ops =
        [MemOp.rm 0 PREFIX_LEN (PREFIX_LEN + first_image_npos e.arch),
         MemOp.add 0 (PREFIX_LEN + first_image_npos e.arch) (-1)
           (-(first_image_npos e.arch))] ∧
      first_image_npos "qwen3vl" = 3 ∧ first_image_npos "gemma3" = 258 ∧
      ∀ K : Finset ℤ, r.mem_ops.foldl applyMemOp K =
        seq_add (seq_rm K PREFIX_LEN (PREFIX_LEN + first_image_npos e.arch))
          (PREFIX_LEN + first_image_npos e.arch) (-(first_image_npos e.arch)) := by
  refine ⟨resOk (first_image_npos e.arch),
    mainF_success e h3 hk ha h1 h2 ht he, rfl, by decide, by decide, ?_⟩
  intro K
  simp [resOk, applyMemOp]

/-- C1 witness: a concrete fully successful qwen3vl invocation. -/
theorem claim_C1_witness :
    ∃ r, mainF envQwenOk = .ok r ∧
      r.mem_ops =
        [MemOp.rm 0 PREFIX_LEN (PREFIX_LEN + first_image_npos envQwenOk.arch),
         MemOp.add 0 (PREFIX_LEN + first_image_npos envQwenOk.arch) (-1)
           (-(first_image_npos envQwenOk.arch))] ∧
      first_image_npos "qwen3vl" = 3 ∧ first_image_npos "gemma3" = 258 ∧
      ∀ K : Finset ℤ, r.mem_ops.foldl applyMemOp K =
        seq_add (seq_rm K PREFIX_LEN (PREFIX_LEN + first_image_npos envQwenOk.arch))
          (PREFIX_LEN + first_image_npos envQwenOk.arch)
          (-(first_image_npos envQwenOk.arch)) :=
  claim_C1 envQwenOk rfl rfl (Or.inl rfl) rfl rfl rfl rfl

/-- C2 counterexample: when the model file lacks the `general.architecture`
key, none of the claim's exit-1 conditions holds, yet the invocation has no
normal exit at all (an exception propagates), so it does not exit 0. -/
theorem claim_C2_counterexample :
    envNoKey.argc = 3 ∧ envNoKey.arch = "qwen3vl" ∧
    envNoKey.img1_ok = true ∧ envNoKey.img2_ok = true ∧
    envNoKey.tokenize_ok = true ∧ envNoKey.eval_ok = true ∧
    exitCode (mainF envNoKey) = none := by
  refine ⟨rfl, rfl, rfl, rfl, rfl, rfl, rfl⟩

/-- C2 amended: complete exit characterization.  Argument-count errors exit 1;
with the architecture key missing there is no normal exit (uncaught exception);
otherwise the program exits 1 exactly on unsupported architecture, image load
failure, tokenization failure or evaluation failure, and exits 0 in every
other case. -/
theorem claim_C2_amended (e : Env) :
    exitCode (mainF e) =
      if e.argc ≠ 3 then some 1
      else if ¬ e.arch_key_found then none
      else if e.arch ≠ "qwen3vl" ∧ e.arch ≠ "gemma3" then some 1
      else if ¬ e.img1_ok ∨ ¬ e.img2_ok then some 1
      else if ¬ e.tokenize_ok then some 1
      else if ¬ e.eval_ok then some 1
      else some 0 := by
  by_cases h3 : e.argc = 3 <;>
  by_cases hk : e.arch_key_found <;>
  by_cases hq : e.arch = "qwen3vl" <;>
  by_cases hg : e.arch = "gemma3" <;>
  by_cases h1 : e.img1_ok <;>
  by_cases h2 : e.img2_ok <;>
  by_cases ht : e.tokenize_ok <;>
  by_cases he : e.eval_ok <;>
    simp [mainF, exitCode, get_model_arch, build_prompt,
      resUsage, resArch, resImg, resTokEval, resOk,
      h3, hk, hq, hg, h1, h2, ht, he]

/-- C3 counterexample: an unsupported architecture (here `"llama"`) does not
propagate an exception out of `main`; `main` prints a message and returns 1
normally, so only one failure kind (missing architecture key) is surfaced as
an uncaught exception. -/
theorem claim_C3_counterexample :
    envUnsupported.arch = "llama" ∧
    threw (mainF envUnsupported) = false ∧
    exitCode (mainF envUnsupported) = some 1 := by
  refine ⟨rfl, rfl, rfl⟩

/-- C3 amended: exactly one failure kind propagates as an uncaught exception
out of `main`, the missing `general.architecture` key; `build_prompt` does
throw on unsupported architectures, but `main` checks the architecture first,
so an unsupported architecture prints a message and returns 1 normally. -/
theorem claim_C3_amended :
    (∀ e m, mainF e = .error m → m = MISSING_KEY_MSG) ∧
    (∀ e : Env, e.argc = 3 → e.arch_key_found = false →
      mainF e = .error MISSING_KEY_MSG) ∧
    (∀ a : String, a ≠ "qwen3vl" → a ≠ "gemma3" →
      build_prompt a = .error ("Unsupported architecture: " ++ a)) ∧
    (∀ e : Env, e.argc = 3 → e.arch_key_found = true →
      e.arch ≠ "qwen3vl" → e.arch ≠ "gemma3" →
      threw (mainF e) = false ∧ exitCode (mainF e) = some 1) := by
  refine ⟨?_, ?_, ?_, ?_⟩
  · intro e m h
    by_cases h3 : e.argc = 3 <;>
    by_cases hk : e.arch_key_found <;>
    by_cases hq : e.arch = "qwen3vl" <;>
    by_cases hg : e.arch = "gemma3" <;>
    by_cases h1 : e.img1_ok <;>
    by_cases h2 : e.img2_ok <;>
    by_cases ht : e.tokenize_ok <;>
    by_cases he : e.eval_ok <;>
    simp only [mainF, get_model_arch, build_prompt,
      h3, hk, hq, hg, h1, h2, ht, he] at h <;>
    simp_all
  · intro e h3 hk
    simp [mainF, get_model_arch, h3, hk]
  · intro a hq hg
    simp [build_prompt, hq, hg]
  · intro e h3 hk hq hg
    simp [mainF, threw, exitCode, get_model_arch, resArch, h3, hk, hq, hg]

/-- C3 amended witness: the missing-key exception at a concrete invocation, and
`build_prompt` throwing at the concrete unsupported architecture `"llama"`. -/
theorem claim_C3_amended_witness :
    mainF envNoKey = .error MISSING_KEY_MSG ∧
    build_prompt "llama" = .error "Unsupported architecture: llama" ∧
    threw (mainF envUnsupported) = false ∧
    exitCode (mainF envUnsupported) = some 1 :=
  ⟨claim_C3_amended.2.1 envNoKey rfl rfl,
   claim_C3_amended.2.2.1 "llama" (by decide) (by decide),
   (claim_C3_amended.2.2.2 envUnsupported rfl rfl (by decide) (by decide)).1,
   (claim_C3_amended.2.2.2 envUnsupported rfl rfl (by decide) (by decide)).2⟩

/-- C4: under the set model of the sequence-0 cache, for every contiguous
occupied range `[0, N)` with `N ≥ 3 + first_image_npos`, the program's removal
followed by its shift yields exactly the contiguous range
`[0, N - first_image_npos)`, and the next available position
(`seq_pos_max + 1`) decreases by exactly `first_image_npos`. -/
theorem claim_C4 (arch : String) (N : ℤ)
    (ha : arch = "qwen3vl" ∨ arch = "gemma3")
    (hN : 3 + first_image_npos arch ≤ N) :
    cacheShift (first_image_npos arch) (Finset.Ico 0 N) =
      Finset.Ico 0 (N - first_image_npos arch) ∧
    seq_pos_max (cacheShift (first_image_npos arch) (Finset.Ico 0 N)) + 1 =
      (seq_pos_max (Finset.Ico 0 N) + 1) - first_image_npos arch := by
  have hn : 0 < first_image_npos arch := by
    rcases ha with h | h <;> simp [first_image_npos, h]
  have hshift : cacheShift (first_image_npos arch) (Finset.Ico 0 N) =
      Finset.Ico 0 (N - first_image_npos arch) :=
    cacheShift_Ico (first_image_npos arch) N (le_of_lt hn) hN
  refine ⟨hshift, ?_⟩
  rw [hshift, seq_pos_max_Ico (N - first_image_npos arch) (by omega),
    seq_pos_max_Ico N (by omega)]
  ring

/-- C4 witness: qwen3vl (`n = 3`) on the initial cache `[0, 10)`. -/
theorem claim_C4_witness :
    cacheShift (first_image_npos "qwen3vl") (Finset.Ico 0 10) =
      Finset.Ico 0 (10 - first_image_npos "qwen3vl") ∧
    seq_pos_max (cacheShift (first_image_npos "qwen3vl") (Finset.Ico 0 10)) + 1 =
      (seq_pos_max (Finset.Ico 0 10) + 1) - first_image_npos "qwen3vl" :=
  claim_C4 "qwen3vl" 10 (Or.inl rfl) (by decide)

/-- C5: for each supported architecture `build_prompt` yields a prompt with
exactly two `<__media__>` markers; for every other architecture it throws;
and whenever the tokenize call is reached it is passed exactly the two
bitmaps, both loaded from the same image file. -/
theorem claim_C5 :
    (∀ a : String, a = "qwen3vl" ∨ a = "gemma3" →
      ∃ p, build_prompt a = .ok p ∧
        countMarker mediaMarker.toList p.toList = 2) ∧
    (∀ a : String, a ≠ "qwen3vl" → a ≠ "gemma3" →
      build_prompt a = .error ("Unsupported architecture: " ++ a)) ∧
    (∀ e : Env, e.argc = 3 → e.arch_key_found = true →
      (e.arch = "qwen3vl" ∨ e.arch = "gemma3") →
      e.img1_ok = true → e.img2_ok = true →
      ∀ r, mainF e = .ok r →
        r.tok_images = some [DICE_IMAGE_PATH, DICE_IMAGE_PATH]) := by
  refine ⟨?_, ?_, ?_⟩
  · rintro a (h | h) <;> subst h
    · exact ⟨_, rfl, by decide⟩
    · exact ⟨_, rfl, by decide⟩
  · intro a hq hg
    simp [build_prompt, hq, hg]
  · intro e h3 hk ha h1 h2 r h
    rcases ha with hq | hq <;>
    by_cases ht : e.tokenize_ok <;>
    by_cases he : e.eval_ok <;>
    simp [mainF, get_model_arch, build_prompt, h3, hk, hq, h1, h2, ht, he] at h <;>
    (subst h; rfl)

/-- C5 witness: both supported architectures and the concrete unsupported
architecture `"llava"`, plus the tokenize images on a concrete invocation. -/
theorem claim_C5_witness :
    (∃ p, build_prompt "qwen3vl" = .ok p ∧
      countMarker mediaMarker.toList p.toList = 2) ∧
    (∃ p, build_prompt "gemma3" = .ok p ∧
      countMarker mediaMarker.toList p.toList = 2) ∧
    build_prompt "llava" = .error "Unsupported architecture: llava" ∧
    (resOk 3).tok_images = some [DICE_IMAGE_PATH, DICE_IMAGE_PATH] :=
  ⟨claim_C5.1 "qwen3vl" (Or.inl rfl),
   claim_C5.1 "gemma3" (Or.inr rfl),
   claim_C5.2.1 "llava" (by decide) (by decide),
   claim_C5.2.2 envQwenOk rfl rfl (Or.inl rfl) rfl rfl (resOk 3) rfl⟩

/-- C6: an end-of-generation token ends the loop before any batch submission
or decode, leaving `n_pos` untouched; and across the whole loop `n_pos`
advances by exactly the number of tokens submitted to `llama_decode`. -/
theorem claim_C6 :
    (∀ (steps : Nat → GenStep) (rem i : Nat) (p : ℤ),
      (genLoopAux steps rem i p).n_pos =
        p + (genLoopAux steps rem i p).decodes) ∧
    (∀ (steps : Nat → GenStep) (rem i : Nat) (p : ℤ),
      (steps i).is_eog = true →
        genLoopAux steps (rem + 1) i p = ⟨p, 1, 0, true, false⟩) := by
  exact ⟨fun steps rem i p => genLoop_n_pos steps rem i p,
    fun steps rem i p h => genLoop_eog steps rem i p h⟩

/-- C6 witness: an immediate end-of-generation token at position 7, and the
`n_pos`-equals-decodes accounting on a concrete all-successful run. -/
theorem claim_C6_witness :
    genLoopAux stepsAllEog (4 + 1) 0 7 = ⟨7, 1, 0, true, false⟩ ∧
    (genLoopAux stepsAllOk 5 0 7).n_pos =
      7 + (genLoopAux stepsAllOk 5 0 7).decodes :=
  ⟨claim_C6.2 stepsAllEog 4 0 7 rfl, claim_C6.1 stepsAllOk 5 0 7⟩

/-- C7: a decode failure only breaks the generation loop (after the failed
call); it never changes the process exit code, so a run whose prompt
evaluation succeeded exits 0 whatever the generation decodes do. -/
theorem claim_C7 :
    (∀ (steps : Nat → GenStep) (rem i : Nat) (p : ℤ),
      (steps i).is_eog = false → (steps i).decode_ok = false →
        genLoopAux steps (rem + 1) i p = ⟨p + 1, 1, 1, false, true⟩) ∧
    (∀ e : Env, e.argc = 3 → e.arch_key_found = true →
      (e.arch = "qwen3vl" ∨ e.arch = "gemma3") →
      e.img1_ok = true → e.img2_ok = true → e.tokenize_ok = true →
      e.eval_ok = true → exitCode (mainF e) = some 0) := by
  refine ⟨fun steps rem i p h1 h2 => genLoop_decode_fail steps rem i p h1 h2, ?_⟩
  intro e h3 hk ha h1 h2 ht he
  rw [mainF_success e h3 hk ha h1 h2 ht he]
  rfl

/-- C7 witness: a run in which every generation decode fails still exits 0,
and the failing decode stops the loop after one iteration. -/
theorem claim_C7_witness :
    genLoopAux stepsAllFail (49 + 1) 0 803 = ⟨804, 1, 1, false, true⟩ ∧
    exitCode (mainF envQwenDecodeFail) = some 0 :=
  ⟨claim_C7.1 stepsAllFail 49 0 803 rfl rfl,
   claim_C7.2 envQwenDecodeFail rfl rfl (Or.inl rfl) rfl rfl rfl rfl⟩

/-- C8: on every normal return from `main`, each resource handle is released
exactly as many times as it was acquired: model, context, vision-projector
context, bitmaps, chunks, sampler and both generation batches. -/
theorem claim_C8 (e : Env) (r : MainResult) (h : mainF e = .ok r) (res : Res) :
    r.acqs.count res = r.rels.count res := by
  rcases mainF_ok_shape e r h with h' | h' | h' | h' | h' | h' <;>
    subst h' <;> cases res <;> rfl

/-- C8 witness: the sampler on the concrete fully successful invocation. -/
theorem claim_C8_witness :
    (resOk 3).acqs.count Res.sampler = (resOk 3).rels.count Res.sampler :=
  claim_C8 envQwenOk (resOk 3) rfl Res.sampler

/-- C9: the generation loop performs at most `count` iterations, so at most
`count` tokens are printed and at most `count` decode calls are made; and the
two passes requested by `main` are with counts 5 and 50. -/
theorem claim_C9 :
    (∀ (steps : Nat → GenStep) (rem i : Nat) (p : ℤ),
      (genLoopAux steps rem i p).printed ≤ rem ∧
      (genLoopAux steps rem i p).decodes ≤ rem) ∧
    (∀ (e : Env) (r : MainResult), mainF e = .ok r →
      r.gen_counts = [] ∨ r.gen_counts = [5, 50]) := by
  refine ⟨fun steps rem i p => genLoop_bounds steps rem i p, ?_⟩
  intro e r h
  rcases mainF_ok_shape e r h with h' | h' | h' | h' | h' | h' <;>
    subst h' <;> simp [resUsage, resArch, resImg, resTokEval, resOk]

/-- C9 witness: the bounds at the concrete second pass (count 50), and the
pass counts of the concrete fully successful invocation. -/
theorem claim_C9_witness :
    ((genLoopAux stepsAllOk 50 0 803).printed ≤ 50 ∧
      (genLoopAux stepsAllOk 50 0 803).decodes ≤ 50) ∧
    ((resOk 3).gen_counts = [] ∨ (resOk 3).gen_counts = [5, 50]) :=
  ⟨claim_C9.1 stepsAllOk 50 0 803, claim_C9.2 envQwenOk (resOk 3) rfl⟩

end TestKvc
